import Mathlib

/-
Verification of the automationadmin bulk-update core (automation.py, cli.py,
config.py) against its design specification.

The browser session is modelled as an abstract environment: each invocation of
the row updater observes a `PageEnv` describing what the remote UI shows at
each interaction point, and every function additionally returns an interaction
trace (search submissions, poll attempts, row selection, reads and writes of
the target field) so that side-effect claims can be stated.
-/

namespace AutomationAdmin

/-- Outcome record for one row, mirroring the `UpdateResult` dataclass of
automation.py (fields employee_id, pos_id, success, old_pos, new_pos, error;
the last three default to absent). -/
structure UpdateResult where
  employee_id : String
  pos_id : String
  success : Bool
  old_pos : Option String := none
  new_pos : Option String := none
  error : Option String := none
deriving Repr, DecidableEq

/-- Embedding of the `AppConfig` model of config.py restricted to the field
the core control flow reads: `retries` with source default 2. URL, selector
and timeout fields only drive navigation timing and are not observable in
this model. -/
structure AppConfig where
  retries : Nat := 2
deriving Repr, DecidableEq

/-- AppConfig with all defaults, as produced by config.py when the YAML file
omits the retry settings. -/
def defaultConfig : AppConfig := {}

/-- Abstract state of the remote admin UI as observed by one invocation of
`update_employee_pos`:
* `noDataInitial` — whether the "Không có dữ liệu" (no data) indicator is
  shown right after the first search submission;
* `table k` — the result-table contents (rows of cell texts) visible at poll
  attempt `k` of the row-appearance wait loop;
* `noDataFinal` — whether the no-data indicator is shown at the re-check
  performed after the last failed poll attempt;
* `waitErr` — the message of the wait-timeout exception interpolated into the
  row-not-found error;
* `editFormKey` — the value the edit form shows in its identity field
  (#sharing_key) after the edit button is clicked;
* `infoOld` — the current value of the target field (#info) on the edit
  form. -/
structure PageEnv where
  noDataInitial : Bool
  table : Nat → List (List String)
  noDataFinal : Bool
  waitErr : String
  editFormKey : String
  infoOld : String

/-- Maximal non-whitespace runs of a character list, accumulator-based, in
order. Helper for the XPath normalize-space model. -/
def wsTokensAux : List Char → List Char → List (List Char)
  | acc, [] => if acc.isEmpty then [] else [acc.reverse]
  | acc, c :: cs =>
    if c.isWhitespace then
      if acc.isEmpty then wsTokensAux [] cs else acc.reverse :: wsTokensAux [] cs
    else wsTokensAux (c :: acc) cs

/-- XPath normalize-space: strip leading/trailing whitespace and collapse
internal whitespace runs to single spaces. Used by the row-selection XPath
`//tr[.//td[normalize-space()=...]]` in automation.py line 69. -/
def normSpace (s : String) : String :=
  String.mk (List.intercalate [' '] (wsTokensAux [] s.data))

/-- Drop leading whitespace characters. Helper for the Python `str.strip`
model. -/
def dropLeadingWs : List Char → List Char
  | [] => []
  | c :: cs => if c.isWhitespace then dropLeadingWs cs else c :: cs

/-- Model of Python `str.strip()` (automation.py line 107): remove leading
and trailing whitespace. -/
def pyStrip (s : String) : String :=
  String.mk (dropLeadingWs ((dropLeadingWs s.data.reverse).reverse))

/-- Row match predicate of the XPath on automation.py line 69: the `tr` has
some `td` whose whitespace-normalized text equals `employee_id` exactly. -/
def matchRow (employee_id : String) (row : List String) : Bool :=
  row.any (fun c => normSpace c == employee_id)

/-- First table row matched by the XPath, as picked by
`page.locator(row_xpath).first` (automation.py line 93). -/
def firstMatch (rows : List (List String)) (employee_id : String) : Option (List String) :=
  rows.find? (matchRow employee_id)

/-- Poll loop for the search-result row (automation.py lines 72-91):
`wait_for_selector` on attempt `k` succeeds iff the table at `k` has a
matching row; otherwise, unless this was the last allowed attempt, the
search is re-submitted and the next attempt follows. Returns the row found
(if any), the number of poll attempts performed, and the number of search
re-submissions performed. Invoked with `k = 0` and `fuel = 3`
(`max_retries = 3` on line 72). -/
def pollLoop (table : Nat → List (List String)) (employee_id : String) :
    Nat → Nat → Option (List String) × Nat × Nat
  | _, 0 => (none, 0, 0)
  | k, fuel + 1 =>
    match firstMatch (table k) employee_id with
    | some row => (some row, 1, 0)
    | none =>
      if fuel = 0 then (none, 1, 0)
      else
        let p := pollLoop table employee_id (k + 1) fuel
        (p.1, p.2.1 + 1, p.2.2 + 1)

/-- Message of the not-found-or-permission error (automation.py lines 64, 84). -/
def permMsg (employee_id : String) : String :=
  "User not found or no permission to access employee_id: " ++ employee_id

/-- Message of the row-not-found error (automation.py line 86), interpolating
`max_retries = 3` and the wait-timeout exception text. -/
def notFoundMsg (employee_id waitErr : String) : String :=
  "Could not find employee row for " ++ employee_id ++ " after 3 retries: " ++ waitErr

/-- Message of the wrong-record error (automation.py line 108). -/
def wrongUserMsg (employee_id got : String) : String :=
  "Form shows wrong user: expected \x27" ++ employee_id ++ "\x27, got \x27" ++ got ++ "\x27"

/-- Interaction trace of one `update_employee_pos` invocation: number of
search submissions (#doSearch clicks), number of poll attempts for the result
row, the row selected (if any), whether its radio control was clicked,
whether the target field (#info) was read, the sequence of values written to
the target field, and whether save (#doEdit) was clicked. -/
structure UpdTrace where
  searchClicks : Nat
  pollAttempts : Nat
  selectedRow : Option (List String)
  radioClicked : Bool
  infoRead : Bool
  infoWrites : List String
  saveClicked : Bool
deriving Repr, DecidableEq

/-- Result of one `update_employee_pos` invocation: either the old value of
the target field or the raised error's message, together with the
interaction trace. -/
structure UpdOutcome where
  result : Except String String
  trace : UpdTrace
deriving Repr

/-- Embedding of `update_employee_pos` (automation.py lines 38-125) over an
abstract page environment. Navigation, fills of the search box, and advisory
waits have no observable effect beyond the trace. Control flow mirrors the
source: no-data check after the first search; poll loop with 3 attempts and
a no-data re-check after the last; selection of the first matching row and
radio click; identity check of the edit form's #sharing_key (trimmed)
against `employee_id`, failing before any read or write of #info; otherwise
read of the old value, clearing write, write of `pos_id`, and save. -/
def update_employee_pos (env : PageEnv) (employee_id pos_id : String) : UpdOutcome :=
  if env.noDataInitial then
    { result := .error (permMsg employee_id),
      trace := ⟨1, 0, none, false, false, [], false⟩ }
  else
    let p := pollLoop env.table employee_id 0 3
    match p.1 with
    | none =>
      { result := .error
          (if env.noDataFinal then permMsg employee_id
           else notFoundMsg employee_id env.waitErr),
        trace := ⟨1 + p.2.2, p.2.1, none, false, false, [], false⟩ }
    | some row =>
      if pyStrip env.editFormKey = employee_id then
        { result := .ok env.infoOld,
          trace := ⟨1 + p.2.2, p.2.1, some row, true, true, ["", pos_id], true⟩ }
      else
        { result := .error (wrongUserMsg employee_id env.editFormKey),
          trace := ⟨1 + p.2.2, p.2.1, some row, true, false, [], false⟩ }

/-- Per-row retry loop of `run_updates` (automation.py lines 146-165):
`attempt` is the current value of the attempt counter, `budget` the number of
further failures still allowed (`retries - attempt`). The environment `env`
maps the attempt index to the page state that invocation of
`update_employee_pos` observes. On success the loop records a successful
`UpdateResult` carrying the old and new values; on failure it increments the
counter and, once `attempt > retries`, records a failed result with the last
error's message. Returns the terminal result, the number of retry cycles
performed (each did a page refresh and a backoff sleep), and the number of
`update_employee_pos` invocations. -/
def rowLoop (env : Nat → PageEnv) (employee_id pos_id : String) :
    Nat → Nat → UpdateResult × Nat × Nat
  | attempt, budget =>
    match (update_employee_pos (env attempt) employee_id pos_id).result with
    | .ok old =>
      (⟨employee_id, pos_id, true, some old, some pos_id, none⟩, attempt, attempt + 1)
    | .error e =>
      match budget with
      | 0 => (⟨employee_id, pos_id, false, none, none, some e⟩, attempt, attempt + 1)
      | b + 1 => rowLoop env employee_id pos_id (attempt + 1) b

/-- One row of the batch loop body (automation.py lines 146-165): in dry-run
mode the updater is never invoked and a successful outcome with no old value
is synthesized; otherwise the retry loop runs with the configured budget.
Returns the outcome, the retry-cycle count, and the updater-invocation
count. -/
def rowStep (page : Nat → PageEnv) (dryRun : Bool) (retries : Nat)
    (employee_id pos_id : String) : UpdateResult × Nat × Nat :=
  if dryRun then (⟨employee_id, pos_id, true, none, some pos_id, none⟩, 0, 0)
  else rowLoop page employee_id pos_id 0 retries

/-- Aggregate observable outcome of one completed `run_updates` run: the
outcome list, the number of `refresh_page` calls (pre-row refreshes on line
144 plus retry refreshes on line 164), the total number of retry cycles, and
the total number of `update_employee_pos` invocations. -/
structure RunOut where
  results : List UpdateResult
  resets : Nat
  totalRetries : Nat
  updCalls : Nat
deriving Repr

/-- Batch iteration of `run_updates` (automation.py lines 141-165): `i` is
the enumeration index; before every row with `i > 0` the page is refreshed
once, then the row's retry loop runs. `page r a` is the page state observed
by attempt `a` of row `r`. -/
def processRows (page : Nat → Nat → PageEnv) (dryRun : Bool) (retries : Nat) :
    Nat → List (String × String) → RunOut
  | _, [] => ⟨[], 0, 0, 0⟩
  | i, (employee_id, pos_id) :: rest =>
    let s := rowStep (page i) dryRun retries employee_id pos_id
    let o := processRows page dryRun retries (i + 1) rest
    ⟨s.1 :: o.results,
     (if 0 < i then 1 else 0) + s.2.1 + o.resets,
     s.2.1 + o.totalRetries,
     s.2.2 + o.updCalls⟩

/-- Abstract environment of one `run_updates` run: the outcome of the initial
`login` call (automation.py lines 23-28 and 139, which may raise), and the
page state each (row index, attempt index) invocation of the updater
observes. Browser launch/teardown and `refresh_page` itself (lines 31-35)
perform unconditional navigation and are modelled as effect-free apart from
being counted. -/
structure RunEnv where
  login : Except String Unit
  pageAt : Nat → Nat → PageEnv

/-- Embedding of `run_updates` (automation.py lines 128-169): resolve the
retry budget from the argument or the config default, perform login — an
error there propagates to the caller and no row is processed — then process
every row sequentially, catching all row-scoped errors into per-row
outcomes. Headless mode, slow-mo, step delays and the backoff duration only
affect timing and are not observable here. -/
def run_updates (cfg : AppConfig) (env : RunEnv) (rows : List (String × String))
    (dryRun : Bool) (retriesOpt : Option Nat) : Except String RunOut :=
  let retries := retriesOpt.getD cfg.retries
  match env.login with
  | .error e => .error e
  | .ok _ => .ok (processRows env.pageAt dryRun retries 0 rows)

/-- Bool test of `needle` occurring as a contiguous substring of `hay`,
character-list based so it evaluates in the kernel. -/
def strContains (hay needle : String) : Bool :=
  (List.range (hay.data.length + 1)).any
    (fun i => needle.data.isPrefixOf (hay.data.drop i))

/-- ASCII lower-casing of a string, modelling Python `str.lower()` on the
ASCII error messages the CLI inspects. -/
def lowerStr (s : String) : String :=
  String.mk (s.data.map Char.toLower)

/-- Model of Python `str(r.error)` in cli.py line 134: a present message is
taken as-is, an absent one renders as "None". -/
def errText (r : UpdateResult) : String :=
  match r.error with
  | some e => e
  | none => "None"

/-- Predicate cli.py line 134 applies to a failed outcome to route it into
the permission-denied report: its error text, lower-cased, contains
"no permission" or "not found". -/
def permMatch (r : UpdateResult) : Bool :=
  strContains (lowerStr (errText r)) "no permission" ||
  strContains (lowerStr (errText r)) "not found"

/-- Partition of the batch outcomes performed by cli.py lines 128-137:
iterate the results in order; failed outcomes matching `permMatch` contribute
their employee_id to the permission-denied list, all other failed outcomes
are kept in the other-failures list, successes are in neither. -/
def partitionFailures : List UpdateResult → List String × List UpdateResult
  | [] => ([], [])
  | r :: rest =>
    let p := partitionFailures rest
    if r.success then p
    else if permMatch r then (r.employee_id :: p.1, p.2)
    else (p.1, r :: p.2)

/-- Predicate written in the specification's own words for the report split:
the error text matches "not found" or "permission" (case-insensitively).
Kept for comparison with `permMatch`, the predicate the code applies. -/
def specPermMatch (r : UpdateResult) : Bool :=
  strContains (lowerStr (errText r)) "not found" ||
  strContains (lowerStr (errText r)) "permission"

/-- Concrete page state on which the update of employee "E1" succeeds at the
first attempt, used by witnesses. -/
def pageOkE1 : PageEnv := ⟨false, fun _ => [["E1"]], false, "t", "E1", "OLD"⟩

/-- Concrete page state showing the no-data indicator, so every update
attempt fails with the not-found-or-permission error. -/
def pageNoData : PageEnv := ⟨true, fun _ => [], false, "t", "E1", "OLD"⟩

/-- Concrete page state with an empty result table and no no-data indicator,
so the poll loop exhausts its attempts. -/
def pageEmpty : PageEnv := ⟨false, fun _ => [], false, "t", "E1", "OLD"⟩

/-- Concrete page state whose edit form shows identity "E2" although the
search matched "E1", triggering the wrong-record guard. -/
def pageWrongKey : PageEnv := ⟨false, fun _ => [["E1"]], false, "t", "E2", "OLD"⟩

/-- Concrete page state whose result table holds two rows both matching
"E1" exactly. -/
def pageDup : PageEnv := ⟨false, fun _ => [["E1"], ["E1"]], false, "t", "E1", "OLD"⟩

/-- Run environment with successful login and `pageOkE1` at every attempt. -/
def envOk : RunEnv := ⟨.ok (), fun _ _ => pageOkE1⟩

/-- Run environment whose login fails. -/
def envBadLogin : RunEnv := ⟨.error "login failed", fun _ _ => pageOkE1⟩

/-- Run environment where every row's first attempt fails with the no-data
error and every later attempt succeeds. -/
def envRetry : RunEnv := ⟨.ok (), fun _ a => if a = 0 then pageNoData else pageOkE1⟩

/-- Outcome record of the successful one-attempt update of ("E1", "P1"). -/
def resOk1 : UpdateResult := ⟨"E1", "P1", true, some "OLD", some "P1", none⟩

/-- Aggregate outcome of running `envOk` on the single row ("E1", "P1"). -/
def outOk1 : RunOut := ⟨[resOk1], 0, 0, 1⟩

/-- Failed outcome whose error text contains "permission" but not
"no permission" and not "not found". -/
def resPermDenied : UpdateResult := ⟨"E9", "P9", false, none, none, some "Permission denied"⟩

/-- Shape of the outcome record produced by the retry loop: the identifiers
are the row's, success and error presence agree, a successful outcome carries
`new_pos = pos_id` and some old value, and a failed outcome carries neither
value. -/
theorem rowLoop_fields (env : Nat → PageEnv) (employee_id pos_id : String) :
    ∀ b a,
      (rowLoop env employee_id pos_id a b).1.employee_id = employee_id ∧
      (rowLoop env employee_id pos_id a b).1.pos_id = pos_id ∧
      ((rowLoop env employee_id pos_id a b).1.success = true ↔
        (rowLoop env employee_id pos_id a b).1.error = none) ∧
      ((rowLoop env employee_id pos_id a b).1.success = true →
        (rowLoop env employee_id pos_id a b).1.new_pos = some pos_id ∧
        (rowLoop env employee_id pos_id a b).1.old_pos ≠ none) ∧
      ((rowLoop env employee_id pos_id a b).1.success = false →
        (rowLoop env employee_id pos_id a b).1.old_pos = none ∧
        (rowLoop env employee_id pos_id a b).1.new_pos = none) := by
  intro b
  induction b with
  | zero =>
    intro a
    rw [rowLoop]
    cases (update_employee_pos (env a) employee_id pos_id).result with
    | ok old => simp
    | error e => simp
  | succ n ih =>
    intro a
    rw [rowLoop]
    cases (update_employee_pos (env a) employee_id pos_id).result with
    | ok old => simp
    | error e => simpa using ih (a + 1)

/-- Identifier fields of the outcome a row step produces are the row's own,
in dry-run mode and real mode alike. -/
theorem rowStep_id (page : Nat → PageEnv) (d : Bool) (rt : Nat)
    (employee_id pos_id : String) :
    (rowStep page d rt employee_id pos_id).1.employee_id = employee_id ∧
    (rowStep page d rt employee_id pos_id).1.pos_id = pos_id := by
  cases d with
  | false =>
    have h := rowLoop_fields page employee_id pos_id rt 0
    exact ⟨by simpa [rowStep] using h.1, by simpa [rowStep] using h.2.1⟩
  | true => simp [rowStep]

/-- Projecting the identifiers of each produced outcome recovers the input
row list: the batch loop yields the rows' outcomes in input order. -/
theorem processRows_map (page : Nat → Nat → PageEnv) (d : Bool) (rt : Nat) :
    ∀ (l : List (String × String)) (i : Nat),
      (processRows page d rt i l).results.map (fun r => (r.employee_id, r.pos_id)) = l := by
  intro l
  induction l with
  | nil => intro i; simp [processRows]
  | cons hd tl ih =>
    intro i
    obtain ⟨eid, pid⟩ := hd
    have hs := rowStep_id (page i) d rt eid pid
    simp only [processRows, List.map_cons, ih (i + 1)]
    rw [hs.1, hs.2]

/-- Invariants of every outcome the batch loop produces: success and error
absence agree, a success records the new value as the row's target, and an
old value is present only on a real (non-dry-run) success. -/
theorem processRows_mem (page : Nat → Nat → PageEnv) (d : Bool) (rt : Nat) :
    ∀ (l : List (String × String)) (i : Nat) (r : UpdateResult),
      r ∈ (processRows page d rt i l).results →
      ((r.success = true ↔ r.error = none) ∧
       (r.success = true → r.new_pos = some r.pos_id) ∧
       (r.old_pos ≠ none → r.success = true ∧ d = false)) := by
  intro l
  induction l with
  | nil => intro i r hr; simp [processRows] at hr
  | cons hd tl ih =>
    intro i r hr
    obtain ⟨eid, pid⟩ := hd
    simp only [processRows, List.mem_cons] at hr
    rcases hr with hr | hr
    · subst hr
      cases d with
      | true => simp [rowStep]
      | false =>
        have hstep : rowStep (page i) false rt eid pid = rowLoop (page i) eid pid 0 rt := by
          simp [rowStep]
        rw [hstep]
        have h := rowLoop_fields (page i) eid pid rt 0
        refine ⟨h.2.2.1, ?_, ?_⟩
        · intro hs
          rw [h.2.1]
          exact (h.2.2.2.1 hs).1
        · intro ho
          cases hsucc : (rowLoop (page i) eid pid 0 rt).1.success with
          | true => exact ⟨rfl, rfl⟩
          | false => exact absurd (h.2.2.2.2 hsucc).1 ho
    · exact ih (i + 1) r hr

/-- Dry-run batch behavior: the updater is never invoked and every row
yields a synthesized success with no old value and the target as new
value. -/
theorem processRows_dry (page : Nat → Nat → PageEnv) (rt : Nat) :
    ∀ (l : List (String × String)) (i : Nat),
      (processRows page true rt i l).results =
        l.map (fun p => ⟨p.1, p.2, true, none, some p.2, none⟩) ∧
      (processRows page true rt i l).updCalls = 0 := by
  intro l
  induction l with
  | nil => intro i; simp [processRows]
  | cons hd tl ih =>
    intro i
    obtain ⟨eid, pid⟩ := hd
    have h := ih (i + 1)
    simp [processRows, rowStep, h.1, h.2]

/-- Reset accounting of the batch loop: starting from enumeration index `i`,
the number of page refreshes equals the number of rows that are preceded by a
pre-row refresh plus the total number of retry cycles. -/
theorem processRows_resets (page : Nat → Nat → PageEnv) (d : Bool) (rt : Nat) :
    ∀ (l : List (String × String)) (i : Nat),
      (processRows page d rt i l).resets =
        (if i = 0 then l.length - 1 else l.length) +
          (processRows page d rt i l).totalRetries := by
  intro l
  induction l with
  | nil => intro i; simp [processRows]
  | cons hd tl ih =>
    intro i
    obtain ⟨eid, pid⟩ := hd
    have h := ih (i + 1)
    rw [if_neg (by omega : ¬i + 1 = 0)] at h
    simp only [processRows, List.length_cons]
    rcases Nat.eq_zero_or_pos i with hi | hi
    · subst hi
      rw [if_pos rfl, if_neg (by omega : ¬(0 : Nat) < 0)]
      omega
    · rw [if_neg (by omega : ¬i = 0), if_pos hi]
      omega

/-- Retry-exhaustion shape of the retry loop: when every attempt in the
window fails, the loop terminates at the last allowed attempt with a failed
outcome carrying the last error's message, having performed one retry cycle
per extra attempt and one updater invocation per attempt. -/
theorem rowLoop_all_fail (env : Nat → PageEnv) (employee_id pos_id : String)
    (errs : Nat → String) :
    ∀ b a,
      (∀ j, a ≤ j → j ≤ a + b →
        (update_employee_pos (env j) employee_id pos_id).result = .error (errs j)) →
      rowLoop env employee_id pos_id a b =
        (⟨employee_id, pos_id, false, none, none, some (errs (a + b))⟩, a + b, a + b + 1) := by
  intro b
  induction b with
  | zero =>
    intro a h
    have ha := h a (Nat.le_refl a) (by omega)
    rw [rowLoop, ha]
    simp
  | succ n ih =>
    intro a h
    have ha := h a (Nat.le_refl a) (by omega)
    have hrec := ih (a + 1) (fun j h1 h2 => h j (by omega) (by omega))
    rw [rowLoop]
    rw [ha]
    simp only [hrec]
    have : a + 1 + n = a + (n + 1) := by omega
    rw [this]

/-- Poll-loop exhaustion: when no table state in the window has a matching
row, the loop performs every allowed attempt, re-submitting the search
between consecutive attempts, and finds nothing. -/
theorem pollLoop_none (table : Nat → List (List String)) (employee_id : String) :
    ∀ fuel k,
      (∀ j, j < fuel → firstMatch (table (k + j)) employee_id = none) →
      fuel ≠ 0 →
      pollLoop table employee_id k fuel = (none, fuel, fuel - 1) := by
  intro fuel
  induction fuel with
  | zero => intro k _ hz; exact absurd rfl hz
  | succ n ih =>
    intro k h _
    have h0 : firstMatch (table k) employee_id = none := by
      have := h 0 (by omega); simpa using this
    cases n with
    | zero => simp [pollLoop, h0]
    | succ m =>
      have hrec := ih (k + 1) (fun j hj => by
        have := h (j + 1) (by omega)
        simpa [Nat.add_assoc, Nat.add_comm 1 j] using this) (by omega)
      have step : pollLoop table employee_id k (m + 1 + 1) =
          ((pollLoop table employee_id (k + 1) (m + 1)).1,
           (pollLoop table employee_id (k + 1) (m + 1)).2.1 + 1,
           (pollLoop table employee_id (k + 1) (m + 1)).2.2 + 1) := by
        rw [pollLoop, h0]
        simp
      rw [step, hrec]
      simp

/-- Poll-loop success: a row the loop returns is the first XPath match of the
table at some attempt inside the window. -/
theorem pollLoop_some (table : Nat → List (List String)) (employee_id : String) :
    ∀ fuel k row,
      (pollLoop table employee_id k fuel).1 = some row →
      ∃ j, k ≤ j ∧ j < k + fuel ∧ firstMatch (table j) employee_id = some row := by
  intro fuel
  induction fuel with
  | zero => intro k row h; simp [pollLoop] at h
  | succ n ih =>
    intro k row h
    cases h0 : firstMatch (table k) employee_id with
    | some r =>
      rw [pollLoop, h0] at h
      simp at h
      exact ⟨k, Nat.le_refl k, by omega, by rw [h0, h]⟩
    | none =>
      rw [pollLoop, h0] at h
      by_cases hn : n = 0
      · subst hn; simp at h
      · rw [if_neg hn] at h
        simp only [] at h
        obtain ⟨j, h1, h2, h3⟩ := ih (k + 1) row h
        exact ⟨j, by omega, by omega, h3⟩

/-- Extraction lemma: a completed run's aggregate outcome is the batch
iteration from index 0 with the resolved retry budget. -/
theorem run_updates_ok (cfg : AppConfig) (env : RunEnv) (rows : List (String × String))
    (d : Bool) (ro : Option Nat) (out : RunOut)
    (h : run_updates cfg env rows d ro = .ok out) :
    out = processRows env.pageAt d (ro.getD cfg.retries) 0 rows := by
  cases hl : env.login with
  | error e => simp [run_updates, hl] at h
  | ok u =>
    simp [run_updates, hl] at h
    exact h.symm

/-- Claim C1: for every input list of (employee_id, target_value) rows and
every run of run_updates that completes, the returned outcome list has
exactly one UpdateResult per input row, has the same length as the input
list, and the i-th outcome corresponds to the i-th input row: projecting the
identifier fields of the outcomes recovers the input list itself. -/
theorem run_updates_output_order (cfg : AppConfig) (env : RunEnv)
    (rows : List (String × String)) (d : Bool) (ro : Option Nat) (out : RunOut)
    (h : run_updates cfg env rows d ro = .ok out) :
    out.results.length = rows.length ∧
    out.results.map (fun r => (r.employee_id, r.pos_id)) = rows := by
  rw [run_updates_ok cfg env rows d ro out h]
  have hm := processRows_map env.pageAt d (ro.getD cfg.retries) rows 0
  refine ⟨?_, hm⟩
  calc (processRows env.pageAt d (ro.getD cfg.retries) 0 rows).results.length
      = ((processRows env.pageAt d (ro.getD cfg.retries) 0 rows).results.map
          (fun r => (r.employee_id, r.pos_id))).length := (List.length_map _ _).symm
    _ = rows.length := by rw [hm]

/-- Witness for claim C1 at a concrete one-row run. -/
theorem run_updates_output_order_witness :
    outOk1.results.length = [("E1", "P1")].length ∧
    outOk1.results.map (fun r => (r.employee_id, r.pos_id)) = [("E1", "P1")] :=
  run_updates_output_order defaultConfig envOk [("E1", "P1")] false none outOk1 rfl

/-- Claim C2: every UpdateResult a completed run produces satisfies
success=true iff error is absent; success implies the recorded new value is
the row's target value; and an old value is recorded only on a real
(non-dry-run) successful update. -/
theorem run_updates_outcome_invariants (cfg : AppConfig) (env : RunEnv)
    (rows : List (String × String)) (d : Bool) (ro : Option Nat) (out : RunOut)
    (h : run_updates cfg env rows d ro = .ok out) :
    ∀ r ∈ out.results,
      (r.success = true ↔ r.error = none) ∧
      (r.success = true → r.new_pos = some r.pos_id) ∧
      (r.old_pos ≠ none → r.success = true ∧ d = false) := by
  intro r hr
  rw [run_updates_ok cfg env rows d ro out h] at hr
  exact processRows_mem env.pageAt d (ro.getD cfg.retries) rows 0 r hr

/-- Witness for claim C2 at the outcome of a concrete one-row run. -/
theorem run_updates_outcome_invariants_witness :
    (resOk1.success = true ↔ resOk1.error = none) ∧
    (resOk1.success = true → resOk1.new_pos = some resOk1.pos_id) ∧
    (resOk1.old_pos ≠ none → resOk1.success = true ∧ false = false) :=
  run_updates_outcome_invariants defaultConfig envOk [("E1", "P1")] false none outOk1
    rfl resOk1 (List.Mem.head _)

/-- Claim C3: running run_updates with dry_run=true never invokes
update_employee_pos, and every row's outcome is a success with no old value
and the row's target as new value. -/
theorem dry_run_behavior (cfg : AppConfig) (env : RunEnv)
    (rows : List (String × String)) (ro : Option Nat) (out : RunOut)
    (h : run_updates cfg env rows true ro = .ok out) :
    out.updCalls = 0 ∧
    out.results = rows.map (fun p => ⟨p.1, p.2, true, none, some p.2, none⟩) := by
  rw [run_updates_ok cfg env rows true ro out h]
  have hd := processRows_dry env.pageAt (ro.getD cfg.retries) rows 0
  exact ⟨hd.2, hd.1⟩

/-- Witness for claim C3 at a concrete one-row dry run. -/
theorem dry_run_behavior_witness :
    (⟨[⟨"E1", "P1", true, none, some "P1", none⟩], 0, 0, 0⟩ : RunOut).updCalls = 0 ∧
    (⟨[⟨"E1", "P1", true, none, some "P1", none⟩], 0, 0, 0⟩ : RunOut).results =
      [("E1", "P1")].map (fun p => ⟨p.1, p.2, true, none, some p.2, none⟩) :=
  dry_run_behavior defaultConfig envOk [("E1", "P1")] none
    ⟨[⟨"E1", "P1", true, none, some "P1", none⟩], 0, 0, 0⟩ rfl

/-- Claim C4: a row whose updater invocation fails on every attempt is
attempted exactly retries + 1 times and then marked failed with the last
error's message; with the config default retries = 2 that is 3 attempts.
The error messages are arbitrary, so the full budget applies to every
failure kind, including the not-found-or-permission error. -/
theorem retry_budget_exact (env : Nat → PageEnv) (employee_id pos_id : String)
    (retries : Nat) (errs : Nat → String)
    (h : ∀ a, a ≤ retries →
      (update_employee_pos (env a) employee_id pos_id).result = .error (errs a)) :
    rowLoop env employee_id pos_id 0 retries =
      (⟨employee_id, pos_id, false, none, none, some (errs retries)⟩, retries, retries + 1) ∧
    defaultConfig.retries + 1 = 3 := by
  refine ⟨?_, rfl⟩
  have hall := rowLoop_all_fail env employee_id pos_id errs retries 0
    (fun j h1 h2 => h j (by omega))
  simpa using hall

/-- Witness for claim C4: every attempt hits the no-data error, and with
retries = 2 the loop performs 3 attempts, 2 retry cycles, and records the
last error. -/
theorem retry_budget_exact_witness :
    rowLoop (fun _ => pageNoData) "E1" "P1" 0 2 =
      (⟨"E1", "P1", false, none, none, some (permMsg "E1")⟩, 2, 3) ∧
    defaultConfig.retries + 1 = 3 :=
  retry_budget_exact (fun _ => pageNoData) "E1" "P1" 2 (fun _ => permMsg "E1")
    (fun _ _ => rfl)

/-- Claim C5: in every completed run, the number of page refreshes equals
(number of rows - 1) pre-row refreshes plus one refresh per retry cycle. -/
theorem reset_count_formula (cfg : AppConfig) (env : RunEnv)
    (rows : List (String × String)) (d : Bool) (ro : Option Nat) (out : RunOut)
    (h : run_updates cfg env rows d ro = .ok out) :
    out.resets = (rows.length - 1) + out.totalRetries := by
  rw [run_updates_ok cfg env rows d ro out h]
  have hr := processRows_resets env.pageAt d (ro.getD cfg.retries) rows 0
  simpa using hr

/-- Witness for claim C5 at a concrete two-row run in which each row needs
one retry: 3 refreshes = (2 - 1) pre-row refresh + 2 retry refreshes. -/
theorem reset_count_formula_witness :
    (⟨[⟨"E1", "P1", true, some "OLD", some "P1", none⟩,
       ⟨"E1", "P2", true, some "OLD", some "P2", none⟩], 3, 2, 4⟩ : RunOut).resets =
      ([("E1", "P1"), ("E1", "P2")].length - 1) +
      (⟨[⟨"E1", "P1", true, some "OLD", some "P1", none⟩,
         ⟨"E1", "P2", true, some "OLD", some "P2", none⟩], 3, 2, 4⟩ : RunOut).totalRetries :=
  reset_count_formula defaultConfig envRetry [("E1", "P1"), ("E1", "P2")] false none
    ⟨[⟨"E1", "P1", true, some "OLD", some "P1", none⟩,
      ⟨"E1", "P2", true, some "OLD", some "P2", none⟩], 3, 2, 4⟩ rfl

/-- Claim C6: when the edit form's identity field (trimmed) differs from the
requested employee_id, update_employee_pos fails with the wrong-record error
and the target field is neither read nor written and save is never
clicked. -/
theorem wrong_record_guard (env : PageEnv) (employee_id pos_id : String)
    (row : List String)
    (h1 : env.noDataInitial = false)
    (h2 : (pollLoop env.table employee_id 0 3).1 = some row)
    (h3 : pyStrip env.editFormKey ≠ employee_id) :
    (update_employee_pos env employee_id pos_id).result =
      .error (wrongUserMsg employee_id env.editFormKey) ∧
    (update_employee_pos env employee_id pos_id).trace.infoRead = false ∧
    (update_employee_pos env employee_id pos_id).trace.infoWrites = [] ∧
    (update_employee_pos env employee_id pos_id).trace.saveClicked = false := by
  simp [update_employee_pos, h1, h2, h3]

/-- Witness for claim C6: the form shows "E2" for requested "E1". -/
theorem wrong_record_guard_witness :
    (update_employee_pos pageWrongKey "E1" "P1").result =
      .error (wrongUserMsg "E1" pageWrongKey.editFormKey) ∧
    (update_employee_pos pageWrongKey "E1" "P1").trace.infoRead = false ∧
    (update_employee_pos pageWrongKey "E1" "P1").trace.infoWrites = [] ∧
    (update_employee_pos pageWrongKey "E1" "P1").trace.saveClicked = false :=
  wrong_record_guard pageWrongKey "E1" "P1" ["E1"] rfl rfl (by decide)

/-- Claim C7: row-scoped errors never become process-level failures — with a
successful login, run_updates completes with one outcome per row and every
failed outcome carries an error message — whereas an error during the
initial login propagates to the caller and no row outcome is produced. -/
theorem error_scoping (cfg : AppConfig) (env : RunEnv) (rows : List (String × String))
    (d : Bool) (ro : Option Nat) :
    (∀ e, env.login = .error e → run_updates cfg env rows d ro = .error e) ∧
    (env.login = .ok () → ∃ out, run_updates cfg env rows d ro = .ok out ∧
      out.results.length = rows.length ∧
      ∀ r ∈ out.results, r.success = false → r.error ≠ none) := by
  constructor
  · intro e he
    simp [run_updates, he]
  · intro hl
    refine ⟨processRows env.pageAt d (ro.getD cfg.retries) 0 rows,
      by simp [run_updates, hl], ?_, ?_⟩
    · have hm := processRows_map env.pageAt d (ro.getD cfg.retries) rows 0
      calc (processRows env.pageAt d (ro.getD cfg.retries) 0 rows).results.length
          = ((processRows env.pageAt d (ro.getD cfg.retries) 0 rows).results.map
              (fun r => (r.employee_id, r.pos_id))).length := (List.length_map _ _).symm
        _ = rows.length := by rw [hm]
    · intro r hr hs hn
      have ht := (processRows_mem env.pageAt d (ro.getD cfg.retries) rows 0 r hr).1.mpr hn
      rw [ht] at hs
      exact Bool.noConfusion hs

/-- Witness for claim C7: a failed login propagates; a successful login on a
one-row input yields one outcome. -/
theorem error_scoping_witness :
    run_updates defaultConfig envBadLogin [("E1", "P1")] false none = .error "login failed" ∧
    (∃ out, run_updates defaultConfig envOk [("E1", "P1")] false none = .ok out ∧
      out.results.length = [("E1", "P1")].length ∧
      ∀ r ∈ out.results, r.success = false → r.error ≠ none) :=
  ⟨(error_scoping defaultConfig envBadLogin [("E1", "P1")] false none).1 "login failed" rfl,
   (error_scoping defaultConfig envOk [("E1", "P1")] false none).2 rfl⟩

/-- Claim C8: when the no-data indicator is absent and no table state in the
window has a row matching employee_id, update_employee_pos performs exactly
3 poll attempts with 3 search submissions in total (the initial one plus one
re-submission between consecutive attempts) and then fails with the
row-not-found error identifying employee_id — unless the no-data indicator
has appeared by the final re-check, in which case the
not-found-or-permission error is raised instead. -/
theorem poll_exhaustion (env : PageEnv) (employee_id pos_id : String)
    (h1 : env.noDataInitial = false)
    (h2 : ∀ k, k < 3 → firstMatch (env.table k) employee_id = none) :
    (update_employee_pos env employee_id pos_id).trace.pollAttempts = 3 ∧
    (update_employee_pos env employee_id pos_id).trace.searchClicks = 3 ∧
    (update_employee_pos env employee_id pos_id).result =
      .error (if env.noDataFinal then permMsg employee_id
              else notFoundMsg employee_id env.waitErr) := by
  have hp : pollLoop env.table employee_id 0 3 = (none, 3, 2) := by
    have hn := pollLoop_none env.table employee_id 3 0
      (fun j hj => by simpa using h2 j hj) (by omega)
    simpa using hn
  simp [update_employee_pos, h1, hp]

/-- Witness for claim C8 at a page whose result table stays empty. -/
theorem poll_exhaustion_witness :
    (update_employee_pos pageEmpty "E1" "P1").trace.pollAttempts = 3 ∧
    (update_employee_pos pageEmpty "E1" "P1").trace.searchClicks = 3 ∧
    (update_employee_pos pageEmpty "E1" "P1").result =
      .error (notFoundMsg "E1" "t") :=
  poll_exhaustion pageEmpty "E1" "P1" rfl (fun _ _ => rfl)

/-- Counterexample to claim C9 as stated: with two table rows whose cells
both equal "E1" exactly, there is no unique matching row, yet the selection
control is still triggered — selection does not require exactly one
match. -/
theorem row_selection_uniqueness_cex :
    (update_employee_pos pageDup "E1" "P1").trace.radioClicked = true ∧
    ((pageDup.table 0).filter (matchRow "E1")).length = 2 :=
  ⟨rfl, rfl⟩

/-- Claim C9 as amended: row selection matches by exact whitespace-normalized
text equality of a cell against employee_id, never by substring; whenever a
row is selected it is the first matching row of the table at some poll
attempt, and its selection control is triggered — uniqueness among matching
rows is not checked. -/
theorem row_selection_semantics (env : PageEnv) (employee_id pos_id : String)
    (row : List String)
    (h : (update_employee_pos env employee_id pos_id).trace.selectedRow = some row) :
    (∃ c ∈ row, normSpace c = employee_id) ∧
    (update_employee_pos env employee_id pos_id).trace.radioClicked = true ∧
    ∃ k, k < 3 ∧ firstMatch (env.table k) employee_id = some row := by
  cases hnd : env.noDataInitial with
  | true => simp [update_employee_pos, hnd] at h
  | false =>
    cases hp : (pollLoop env.table employee_id 0 3).1 with
    | none => simp [update_employee_pos, hnd, hp] at h
    | some r =>
      by_cases hk : pyStrip env.editFormKey = employee_id
      all_goals
        simp only [update_employee_pos, hnd, hp, hk] at h ⊢
      all_goals
        simp at h
      all_goals
        subst h
      all_goals
        obtain ⟨j, hj1, hj2, hj3⟩ := pollLoop_some env.table employee_id 3 0 r hp
      all_goals
        have hj3f : (env.table j).find? (matchRow employee_id) = some r := hj3
      all_goals
        have hm := List.find?_some hj3f
      all_goals
        simp only [matchRow, List.any_eq_true, beq_iff_eq] at hm
      all_goals
        refine ⟨hm, by simp [update_employee_pos, hnd, hp, hk], ⟨j, by omega, hj3⟩⟩

/-- Witness for the amended claim C9 at a page with one matching row. -/
theorem row_selection_semantics_witness :
    (∃ c ∈ ["E1"], normSpace c = "E1") ∧
    (update_employee_pos pageOkE1 "E1" "P1").trace.radioClicked = true ∧
    ∃ k, k < 3 ∧ firstMatch (pageOkE1.table k) "E1" = some ["E1"] :=
  row_selection_semantics pageOkE1 "E1" "P1" ["E1"] rfl

/-- Counterexample to claim C10 as stated: this failed outcome's error text
matches "permission" in the claim's sense, yet the CLI partition routes it
into the other-failures list and not into the permission-denied report,
because the code tests for the substring "no permission". -/
theorem partition_spec_mismatch_cex :
    specPermMatch resPermDenied = true ∧
    (partitionFailures [resPermDenied]).1 = [] ∧
    (partitionFailures [resPermDenied]).2 = [resPermDenied] :=
  ⟨rfl, rfl, rfl⟩

/-- Claim C10 as amended: the failed outcomes are partitioned so that exactly
those whose error text case-insensitively contains "no permission" or
"not found" are routed (by employee_id, in order) into the permission-denied
report, and all other failures are kept apart from it; successes appear in
neither list. -/
theorem partition_characterization (results : List UpdateResult) :
    (partitionFailures results).1 =
      (results.filter (fun r => !r.success && permMatch r)).map (fun r => r.employee_id) ∧
    (partitionFailures results).2 =
      results.filter (fun r => !r.success && !permMatch r) := by
  induction results with
  | nil => exact ⟨rfl, rfl⟩
  | cons r rest ih =>
    cases hs : r.success with
    | true =>
      simp [partitionFailures, List.filter_cons, hs, ih.1, ih.2]
    | false =>
      cases hpm : permMatch r with
      | true => simp [partitionFailures, List.filter_cons, hs, hpm, ih.1, ih.2]
      | false => simp [partitionFailures, List.filter_cons, hs, hpm, ih.1, ih.2]

end AutomationAdmin
